import Mathlib

/-!
Verification of the KVS WebRTC negotiation engine
(src/lib/kvs-webrtc.ts, class KVSWebRTCClient).

The engine state (`KVSWebRTCClient`) is a shallow embedding of the
class's mutable fields.  The asynchronous AWS calls made by `connect`
are modelled by an environment record (`ConnectEnv`) holding the
responses the code awaits; `connect` is then a pure function from the
engine state, the environment and the optional local stream to the new
engine state paired with the error thrown, if any.  The signaling event
handlers installed by `setupSignalingHandlers` are modelled by
`processEvent`, a transition function on the engine state driven by one
incoming signaling event; outgoing messages are accumulated in a
`sentMessages` log, and `track.stop()` calls are accumulated in a
`stoppedTrackIds` log.
-/

/-- Participant role, from the amazon-kinesis-video-streams-webrtc SDK:
MASTER is the publisher, VIEWER the subscriber. -/
inductive Role where
  | MASTER
  | VIEWER
deriving DecidableEq

/-- A session description (offer or answer); the SDP text is opaque to the
engine. -/
structure SDP where
  sdp : String
deriving DecidableEq

/-- An ICE candidate; its content is opaque to the engine. -/
structure RTCIceCandidate where
  candidate : String
deriving DecidableEq

/-- A media track, identified by an id; `kind` is "audio" or "video". -/
structure MediaStreamTrack where
  id : Nat
  kind : String
deriving DecidableEq

/-- A media stream: a collection of tracks. -/
structure MediaStream where
  tracks : List MediaStreamTrack
deriving DecidableEq

/-- ICE server entry as built by `connect` (interface IceServer in the
source: urls, optional username, optional credential). -/
structure IceServer where
  urls : List String
  username : Option String
  credential : Option String
deriving DecidableEq

/-- One entry of the `IceServerList` returned by the AWS
GetIceServerConfig call (fields Uris, Username, Password). -/
structure AwsIceServer where
  Uris : List String
  Username : Option String
  Password : Option String
deriving DecidableEq

/-- The RTCPeerConnection as far as the engine observes it: the ICE server
configuration it was created with, the local and remote descriptions, the
candidates applied via `addIceCandidate` (in application order), and the
ids of the local tracks attached via `addTrack`. -/
structure PeerConnection where
  iceServers : List IceServer
  localDescription : Option SDP
  remoteDescription : Option SDP
  appliedCandidates : List RTCIceCandidate
  localTrackIds : List Nat
deriving DecidableEq

/-- A message sent over the signaling channel by the engine
(`sendSdpOffer`, `sendSdpAnswer`, `sendIceCandidate`). -/
inductive OutMsg where
  | sdpOffer (offer : SDP)
  | sdpAnswer (answer : SDP) (remoteClientId : String)
  | iceCandidate (candidate : RTCIceCandidate)
deriving DecidableEq

/-- An incoming signaling event, one per handler registered in
`setupSignalingHandlers`.  The channel-open event is `opened`. -/
inductive SignalingEvent where
  | opened
  | sdpOffer (offer : SDP) (remoteClientId : String)
  | sdpAnswer (answer : SDP) (remoteClientId : String)
  | iceCandidate (candidate : RTCIceCandidate)
  | errorEvent
  | closeEvent
deriving DecidableEq

/-- The errors `connect` can throw: the two explicit `throw new Error`
sites, a rejected GetIceServerConfig call (caught and rethrown by the
outer catch), and the `waitForConnection` timeout. -/
inductive ConnectError where
  | noChannelARN
  | noEndpoints
  | iceFetchFailed
  | signalingTimeout
deriving DecidableEq

/-- Environment of one `connect` run: the responses of the awaited AWS
calls and whether the signaling channel reaches the open state within
the 10 s timeout.  `iceServerConfig` is `.error` when the
GetIceServerConfig call itself rejects, and `.ok` with the optional
`IceServerList` of a successful response otherwise. -/
structure ConnectEnv where
  channelARN : Option String
  resourceEndpointList : Option (List (String × String))
  iceServerConfig : Except String (Option (List AwsIceServer))
  signalingOpens : Bool

/-- The mutable fields of class KVSWebRTCClient, plus two observation
logs: the messages the engine sent over the signaling channel and the
ids of the tracks it stopped via `track.stop()`. -/
structure KVSWebRTCClient where
  role : Role
  peerConnection : Option PeerConnection
  signalingClient : Option Unit
  localStream : Option MediaStream
  remoteStream : Option MediaStream
  pendingICECandidates : List RTCIceCandidate
  sentMessages : List OutMsg
  stoppedTrackIds : List Nat
deriving DecidableEq

/-- A freshly constructed client: the constructor sets only the role and
the AWS SDK clients; every session field is undefined and the pending
candidate buffer is initialised empty. -/
def initClient (role : Role) : KVSWebRTCClient :=
  { role := role
    peerConnection := none
    signalingClient := none
    localStream := none
    remoteStream := none
    pendingICECandidates := []
    sentMessages := []
    stoppedTrackIds := [] }

/-- The `iceServers` array `connect` builds from the GetIceServerConfig
response: each entry of `IceServerList` is mapped to
`{urls: Uris, username: Username, credential: Password}`; a missing
list yields an empty array. -/
def fetchedIceServers : Option (List AwsIceServer) → List IceServer
  | some l => l.map fun is => { urls := is.Uris, username := is.Username, credential := is.Password }
  | none => []

/-- KVSWebRTCClient.connect.  Follows the source order: store the local
stream, DescribeSignalingChannel (throw if no ChannelARN),
GetSignalingChannelEndpoint (throw if no ResourceEndpointList), await
GetIceServerConfig (a rejection propagates to the catch block, which
reports through onError and rethrows — modelled by returning the error
with the state as mutated so far), create the RTCPeerConnection with
the fetched servers, attach the local tracks, create the signaling
client, open it, and wait for the open event or the 10 s timeout. -/
def connect (s : KVSWebRTCClient) (env : ConnectEnv) (localStream : Option MediaStream) :
    KVSWebRTCClient × Option ConnectError :=
  let s := { s with localStream := localStream }
  match env.channelARN with
  | none => (s, some ConnectError.noChannelARN)
  | some _arn =>
    match env.resourceEndpointList with
    | none => (s, some ConnectError.noEndpoints)
    | some _eps =>
      match env.iceServerConfig with
      | Except.error _ => (s, some ConnectError.iceFetchFailed)
      | Except.ok iceList =>
        let pc : PeerConnection :=
          { iceServers := fetchedIceServers iceList
            localDescription := none
            remoteDescription := none
            appliedCandidates := []
            localTrackIds :=
              match localStream with
              | some ls => ls.tracks.map MediaStreamTrack.id
              | none => [] }
        let s := { s with peerConnection := some pc }
        let s := { s with signalingClient := some () }
        if env.signalingOpens then (s, none) else (s, some ConnectError.signalingTimeout)

/-- The deterministic model of the browser's `createOffer` result. -/
def createdOffer : SDP := { sdp := "local-offer" }

/-- The deterministic model of the browser's `createAnswer` result. -/
def createdAnswer : SDP := { sdp := "local-answer" }

/-- KVSWebRTCClient.createAndSendOffer: returns immediately unless the
role is VIEWER and both the peer connection and the signaling client
exist; otherwise creates an offer, sets it as local description and
sends it over the signaling channel. -/
def createAndSendOffer (s : KVSWebRTCClient) : KVSWebRTCClient :=
  if s.role = Role.VIEWER then
    match s.peerConnection, s.signalingClient with
    | some pc, some _ =>
        let pc2 := { pc with localDescription := some createdOffer }
        { s with peerConnection := some pc2
                 sentMessages := s.sentMessages ++ [OutMsg.sdpOffer createdOffer] }
    | _, _ => s
  else s

/-- The `open` handler of setupSignalingHandlers: a VIEWER sends its
offer; a MASTER waits. -/
def handleOpen (s : KVSWebRTCClient) : KVSWebRTCClient :=
  if s.role = Role.VIEWER then createAndSendOffer s else s

/-- The `sdpOffer` handler: a MASTER with a live peer connection sets the
offer as remote description, creates and sets a local answer, sends the
answer to the offering client, then applies every pending ICE candidate
in order and clears the buffer.  Any other role ignores the event. -/
def handleSdpOffer (s : KVSWebRTCClient) (offer : SDP) (remoteClientId : String) :
    KVSWebRTCClient :=
  if s.role = Role.MASTER then
    match s.peerConnection with
    | some pc =>
        let pc2 :=
          { pc with
              remoteDescription := some offer
              localDescription := some createdAnswer
              appliedCandidates := pc.appliedCandidates ++ s.pendingICECandidates }
        { s with
            peerConnection := some pc2
            pendingICECandidates := []
            sentMessages := s.sentMessages ++ [OutMsg.sdpAnswer createdAnswer remoteClientId] }
    | none => s
  else s

/-- The `sdpAnswer` handler: a VIEWER with a live peer connection sets
the answer as remote description, then applies every pending ICE
candidate in order and clears the buffer. -/
def handleSdpAnswer (s : KVSWebRTCClient) (answer : SDP) (_remoteClientId : String) :
    KVSWebRTCClient :=
  if s.role = Role.VIEWER then
    match s.peerConnection with
    | some pc =>
        let pc2 :=
          { pc with
              remoteDescription := some answer
              appliedCandidates := pc.appliedCandidates ++ s.pendingICECandidates }
        { s with
            peerConnection := some pc2
            pendingICECandidates := [] }
    | none => s
  else s

/-- The `iceCandidate` handler: with no peer connection the candidate is
dropped; with a peer connection but no remote description it is appended
to the pending buffer; otherwise it is applied immediately. -/
def handleIceCandidate (s : KVSWebRTCClient) (c : RTCIceCandidate) : KVSWebRTCClient :=
  match s.peerConnection with
  | none => s
  | some pc =>
    match pc.remoteDescription with
    | none => { s with pendingICECandidates := s.pendingICECandidates ++ [c] }
    | some _ =>
        let pc2 := { pc with appliedCandidates := pc.appliedCandidates ++ [c] }
        { s with peerConnection := some pc2 }

/-- Dispatch of one incoming signaling event to its handler.  The
`error` handler only forwards to the onError callback and the `close`
handler only logs; neither mutates engine state. -/
def processEvent (s : KVSWebRTCClient) : SignalingEvent → KVSWebRTCClient
  | SignalingEvent.opened => handleOpen s
  | SignalingEvent.sdpOffer o r => handleSdpOffer s o r
  | SignalingEvent.sdpAnswer a r => handleSdpAnswer s a r
  | SignalingEvent.iceCandidate c => handleIceCandidate s c
  | SignalingEvent.errorEvent => s
  | SignalingEvent.closeEvent => s

/-- Processing of a sequence of signaling events in arrival order. -/
def processEvents (s : KVSWebRTCClient) (es : List SignalingEvent) : KVSWebRTCClient :=
  es.foldl processEvent s

/-- Track ids stopped when a stream is torn down (`getTracks().forEach(track => track.stop())`). -/
def stopTracks (ms : MediaStream) : List Nat :=
  ms.tracks.map MediaStreamTrack.id

/-- KVSWebRTCClient.disconnect: stop and release the local stream, stop
and release the remote stream, close and release the peer connection,
close and release the signaling client.  (The source does not touch
`pendingICECandidates`.) -/
def disconnect (s : KVSWebRTCClient) : KVSWebRTCClient :=
  let s1 :=
    match s.localStream with
    | some ls =>
        { s with stoppedTrackIds := s.stoppedTrackIds ++ stopTracks ls, localStream := none }
    | none => s
  let s2 :=
    match s1.remoteStream with
    | some rs =>
        { s1 with stoppedTrackIds := s1.stoppedTrackIds ++ stopTracks rs, remoteStream := none }
    | none => s1
  let s3 :=
    match s2.peerConnection with
    | some _ => { s2 with peerConnection := none }
    | none => s2
  match s3.signalingClient with
  | some _ => { s3 with signalingClient := none }
  | none => s3

/-- Candidates applied to the transport so far (empty when no peer
connection exists). -/
def appliedOf (s : KVSWebRTCClient) : List RTCIceCandidate :=
  match s.peerConnection with
  | some pc => pc.appliedCandidates
  | none => []

/-- Count of offers the engine has sent so far. -/
def offersSent (s : KVSWebRTCClient) : Nat :=
  s.sentMessages.countP fun m =>
    match m with
    | OutMsg.sdpOffer _ => true
    | _ => false

/-- Whether a signaling event is the channel-open event. -/
def isOpenEvent : SignalingEvent → Bool
  | SignalingEvent.opened => true
  | _ => false

/-- Count of channel-open events in a trace. -/
def openCount (es : List SignalingEvent) : Nat :=
  es.countP isOpenEvent

/-- The event that makes the remote description available for the given
role: a received offer for the publisher, a received answer for the
subscriber. -/
def remoteDescEvent : Role → SDP → String → SignalingEvent
  | Role.MASTER, sdp, rid => SignalingEvent.sdpOffer sdp rid
  | Role.VIEWER, sdp, rid => SignalingEvent.sdpAnswer sdp rid

/-- A well-behaved AWS environment: the channel resolves, endpoints are
returned, the ICE config call succeeds with no server list, and the
signaling channel opens in time. -/
def goodEnv : ConnectEnv :=
  { channelARN := some "arn:aws:kinesisvideo:chan-1"
    resourceEndpointList := some [("WSS", "wss://endpoint"), ("HTTPS", "https://endpoint")]
    iceServerConfig := Except.ok none
    signalingOpens := true }

/-- Same environment but the GetIceServerConfig call rejects. -/
def envIceFail : ConnectEnv :=
  { goodEnv with iceServerConfig := Except.error "fetch failed" }

/-- Same environment but the signaling channel never opens. -/
def envTimeout : ConnectEnv :=
  { goodEnv with signalingOpens := false }

/-- One relay server descriptor as returned by GetIceServerConfig. -/
def relayServer : AwsIceServer :=
  { Uris := ["turn:relay"], Username := some "u", Password := some "p" }

/-- Same environment but the ICE config call returns one relay server. -/
def envWithRelay : ConnectEnv :=
  { goodEnv with iceServerConfig := Except.ok (some [relayServer]) }

/-- The peer connection as freshly created by a successful `connect`
against `goodEnv` with no local stream. -/
def freshPC : PeerConnection :=
  { iceServers := []
    localDescription := none
    remoteDescription := none
    appliedCandidates := []
    localTrackIds := [] }

/-- A MASTER client right after a successful `connect` against `goodEnv`. -/
def masterReady : KVSWebRTCClient :=
  (connect (initClient Role.MASTER) goodEnv none).1

/-- A VIEWER client right after a successful `connect` against `goodEnv`. -/
def viewerReady : KVSWebRTCClient :=
  (connect (initClient Role.VIEWER) goodEnv none).1

/-- Sample candidates and offers for concrete runs. -/
def candA : RTCIceCandidate := { candidate := "cand-a" }

def candB : RTCIceCandidate := { candidate := "cand-b" }

def candC : RTCIceCandidate := { candidate := "cand-c" }

def offer1 : SDP := { sdp := "offer-1" }

def offer2 : SDP := { sdp := "offer-2" }

/-- A caller-owned camera track and its stream. -/
def track7 : MediaStreamTrack := { id := 7, kind := "video" }

def stream7 : MediaStream := { tracks := [track7] }

/-- The remote description currently held by the transport session. -/
def remoteDescOf (s : KVSWebRTCClient) : Option SDP :=
  match s.peerConnection with
  | some pc => pc.remoteDescription
  | none => none

/-- Field-level description of what disconnect stops: the prior log,
then the local stream's tracks, then the remote stream's tracks. -/
theorem disconnect_stoppedTrackIds (s : KVSWebRTCClient) :
    (disconnect s).stoppedTrackIds =
      s.stoppedTrackIds ++
        (match s.localStream with | some ls => stopTracks ls | none => []) ++
        (match s.remoteStream with | some rs => stopTracks rs | none => []) := by
  rcases s with ⟨role, pc, sc, ls, rs, pend, sent, stopped⟩
  cases ls <;> cases rs <;> cases pc <;> cases sc <;> simp [disconnect]

/-- C7: disconnect() is idempotent and safe out of order: on a freshly
constructed client it is a no-op (same state, no error), and a second
disconnect after a first one changes nothing. -/
theorem c7_disconnect_idempotent :
    (∀ role : Role, disconnect (initClient role) = initClient role) ∧
    (∀ s : KVSWebRTCClient, disconnect (disconnect s) = disconnect s) := by
  constructor
  · intro role
    rfl
  · intro s
    rcases s with ⟨role, pc, sc, ls, rs, pend, sent, stopped⟩
    cases ls <;> cases rs <;> cases pc <;> cases sc <;> rfl

/-- C8: contrary to the claim, disconnect() never touches the pending
candidate buffer: whatever candidates were buffered before the call are
still buffered after it; in particular a client that buffered `candA`
still holds it after disconnect(). -/
theorem c8_disconnect_keeps_pending_buffer :
    (∀ s : KVSWebRTCClient,
      (disconnect s).pendingICECandidates = s.pendingICECandidates) ∧
    (disconnect (processEvents masterReady
        [SignalingEvent.iceCandidate candA])).pendingICECandidates = [candA] := by
  constructor
  · intro s
    rcases s with ⟨role, pc, sc, ls, rs, pend, sent, stopped⟩
    cases ls <;> cases rs <;> cases pc <;> cases sc <;> rfl
  · decide

/-- C10: an ICE candidate event received while no peer connection exists
is silently discarded: the engine state is entirely unchanged (the
candidate is neither applied nor buffered, and no error is raised). -/
theorem c10_candidate_dropped_without_pc (s : KVSWebRTCClient) (c : RTCIceCandidate)
    (h : s.peerConnection = none) :
    processEvent s (SignalingEvent.iceCandidate c) = s := by
  simp [processEvent, handleIceCandidate, h]

theorem c10_witness :
    processEvent (initClient Role.MASTER) (SignalingEvent.iceCandidate candA) =
      initClient Role.MASTER :=
  c10_candidate_dropped_without_pc (initClient Role.MASTER) candA rfl

/-- C2 as stated is false at a concrete input: with an environment whose
GetIceServerConfig call rejects, connect() aborts with that error and
never constructs the transport session or the signaling channel. -/
theorem c2_counterexample :
    (connect (initClient Role.MASTER) envIceFail none).2 = some ConnectError.iceFetchFailed ∧
    (connect (initClient Role.MASTER) envIceFail none).1.peerConnection = none ∧
    (connect (initClient Role.MASTER) envIceFail none).1.signalingClient = none := by
  decide

/-- C2 amended: only a SUCCESSFUL ICE-config response with a missing
server list degrades to an empty relay list (connect proceeds to create
the transport session and open signaling); a REJECTED ICE-config call
aborts connect() with the error, leaving the session unconstructed. -/
theorem c2_ice_config_behaviour (s : KVSWebRTCClient) (envOk envBad : ConnectEnv)
    (ls : Option MediaStream) (arn arn2 : String)
    (eps eps2 : List (String × String)) (msg : String)
    (h1 : envOk.channelARN = some arn)
    (h2 : envOk.resourceEndpointList = some eps)
    (h3 : envOk.iceServerConfig = Except.ok none)
    (h4 : envOk.signalingOpens = true)
    (g1 : envBad.channelARN = some arn2)
    (g2 : envBad.resourceEndpointList = some eps2)
    (g3 : envBad.iceServerConfig = Except.error msg) :
    ((connect s envOk ls).2 = none ∧
      (connect s envOk ls).1.peerConnection.map PeerConnection.iceServers = some [] ∧
      (connect s envOk ls).1.signalingClient = some ()) ∧
    ((connect s envBad ls).2 = some ConnectError.iceFetchFailed ∧
      (connect s envBad ls).1.peerConnection = s.peerConnection ∧
      (connect s envBad ls).1.signalingClient = s.signalingClient) := by
  constructor
  · simp [connect, h1, h2, h3, h4, fetchedIceServers]
  · simp [connect, g1, g2, g3]

theorem c2_witness :
    (((connect (initClient Role.MASTER) goodEnv none).2 = none ∧
      (connect (initClient Role.MASTER) goodEnv none).1.peerConnection.map
        PeerConnection.iceServers = some [] ∧
      (connect (initClient Role.MASTER) goodEnv none).1.signalingClient = some ()) ∧
    ((connect (initClient Role.MASTER) envIceFail none).2 = some ConnectError.iceFetchFailed ∧
      (connect (initClient Role.MASTER) envIceFail none).1.peerConnection =
        (initClient Role.MASTER).peerConnection ∧
      (connect (initClient Role.MASTER) envIceFail none).1.signalingClient =
        (initClient Role.MASTER).signalingClient)) :=
  c2_ice_config_behaviour (initClient Role.MASTER) goodEnv envIceFail none
    "arn:aws:kinesisvideo:chan-1" "arn:aws:kinesisvideo:chan-1"
    [("WSS", "wss://endpoint"), ("HTTPS", "https://endpoint")]
    [("WSS", "wss://endpoint"), ("HTTPS", "https://endpoint")]
    "fetch failed" rfl rfl rfl rfl rfl rfl rfl

/-- C3 as stated is false at a concrete input: a second connect() issued
on a client whose previous attempt is still live (transport session and
signaling channel in place) does not fail — there is no
AlreadyConnectingError anywhere in the code — and it replaces the
original attempt's transport session. -/
theorem c3_counterexample :
    (connect masterReady envWithRelay none).2 = none ∧
    (connect masterReady envWithRelay none).1.peerConnection ≠ masterReady.peerConnection := by
  decide

/-- C3 amended: connect() performs no in-flight guard: called on a
client that already holds a live transport session it proceeds through
the whole sequence again, succeeding and overwriting the transport
session (with a fresh one built from the new environment) and the
signaling channel. -/
theorem c3_second_connect_overwrites (s : KVSWebRTCClient) (env : ConnectEnv)
    (ls : Option MediaStream) (arn : String) (eps : List (String × String))
    (ice : Option (List AwsIceServer))
    (_hlive : s.peerConnection.isSome = true)
    (h1 : env.channelARN = some arn)
    (h2 : env.resourceEndpointList = some eps)
    (h3 : env.iceServerConfig = Except.ok ice)
    (h4 : env.signalingOpens = true) :
    (connect s env ls).2 = none ∧
    (connect s env ls).1.peerConnection =
      some { iceServers := fetchedIceServers ice
             localDescription := none
             remoteDescription := none
             appliedCandidates := []
             localTrackIds :=
               match ls with
               | some l => l.tracks.map MediaStreamTrack.id
               | none => [] } ∧
    (connect s env ls).1.signalingClient = some () := by
  simp [connect, h1, h2, h3, h4]

theorem c3_witness :
    masterReady.peerConnection.isSome = true ∧
    ((connect masterReady envWithRelay none).2 = none ∧
     (connect masterReady envWithRelay none).1.peerConnection =
       some { iceServers := fetchedIceServers (some [relayServer])
              localDescription := none
              remoteDescription := none
              appliedCandidates := []
              localTrackIds := [] } ∧
     (connect masterReady envWithRelay none).1.signalingClient = some ()) :=
  ⟨rfl, c3_second_connect_overwrites masterReady envWithRelay none
      "arn:aws:kinesisvideo:chan-1"
      [("WSS", "wss://endpoint"), ("HTTPS", "https://endpoint")]
      (some [relayServer]) rfl rfl rfl rfl rfl⟩

/-- C4 as stated is false at a concrete input: after a fatal
signaling-timeout error during connect(), the engine still holds the
transport session, the signaling channel and the caller's local stream,
and has stopped no track — no teardown equivalent to disconnect()
happened. -/
theorem c4_counterexample :
    (connect (initClient Role.MASTER) envTimeout (some stream7)).2 =
      some ConnectError.signalingTimeout ∧
    (connect (initClient Role.MASTER) envTimeout (some stream7)).1.peerConnection.isSome = true ∧
    (connect (initClient Role.MASTER) envTimeout (some stream7)).1.signalingClient = some () ∧
    (connect (initClient Role.MASTER) envTimeout (some stream7)).1.localStream = some stream7 ∧
    (connect (initClient Role.MASTER) envTimeout (some stream7)).1.stoppedTrackIds = [] := by
  decide

/-- C4 amended: a fatal error during connect() performs no teardown: the
error is surfaced (and rethrown) while the transport session, the
signaling channel and the local stream remain held and no track is
stopped; the resources are only released by an explicit later
disconnect() from the caller. -/
theorem c4_no_teardown_on_fatal (s : KVSWebRTCClient) (env : ConnectEnv)
    (ms : MediaStream) (arn : String) (eps : List (String × String))
    (ice : Option (List AwsIceServer))
    (h1 : env.channelARN = some arn)
    (h2 : env.resourceEndpointList = some eps)
    (h3 : env.iceServerConfig = Except.ok ice)
    (h4 : env.signalingOpens = false) :
    (connect s env (some ms)).2 = some ConnectError.signalingTimeout ∧
    (connect s env (some ms)).1.peerConnection.isSome = true ∧
    (connect s env (some ms)).1.signalingClient = some () ∧
    (connect s env (some ms)).1.localStream = some ms ∧
    (connect s env (some ms)).1.stoppedTrackIds = s.stoppedTrackIds ∧
    (disconnect (connect s env (some ms)).1).peerConnection = none ∧
    (disconnect (connect s env (some ms)).1).signalingClient = none ∧
    (disconnect (connect s env (some ms)).1).localStream = none := by
  rcases s with ⟨role, pc, sc, ls, rs, pend, sent, stopped⟩
  cases rs <;> simp [connect, h1, h2, h3, h4, disconnect]

theorem c4_witness :
    (connect (initClient Role.MASTER) envTimeout (some stream7)).2 =
      some ConnectError.signalingTimeout ∧
    (connect (initClient Role.MASTER) envTimeout (some stream7)).1.peerConnection.isSome = true ∧
    (connect (initClient Role.MASTER) envTimeout (some stream7)).1.signalingClient = some () ∧
    (connect (initClient Role.MASTER) envTimeout (some stream7)).1.localStream = some stream7 ∧
    (connect (initClient Role.MASTER) envTimeout (some stream7)).1.stoppedTrackIds =
      (initClient Role.MASTER).stoppedTrackIds ∧
    (disconnect (connect (initClient Role.MASTER) envTimeout (some stream7)).1).peerConnection = none ∧
    (disconnect (connect (initClient Role.MASTER) envTimeout (some stream7)).1).signalingClient = none ∧
    (disconnect (connect (initClient Role.MASTER) envTimeout (some stream7)).1).localStream = none :=
  c4_no_teardown_on_fatal (initClient Role.MASTER) envTimeout stream7
    "arn:aws:kinesisvideo:chan-1"
    [("WSS", "wss://endpoint"), ("HTTPS", "https://endpoint")]
    none rfl rfl rfl rfl

/-- C9 as stated is false at a concrete input: the caller supplies the
camera track `track7` (id 7) at connect() time; disconnect() calls
`track.stop()` on it — the engine destroys a track it did not create. -/
theorem c9_counterexample :
    (disconnect (connect (initClient Role.MASTER) goodEnv (some stream7)).1).stoppedTrackIds
      = [7] := by
  decide

/-- C9 amended: disconnect() stops every track of the caller-supplied
outbound stream: each such track's id is recorded in the stop log after
the call (the engine takes over and destroys caller-owned tracks on
teardown rather than merely detaching them). -/
theorem c9_disconnect_stops_caller_tracks (s : KVSWebRTCClient) (ms : MediaStream)
    (t : MediaStreamTrack) (h1 : s.localStream = some ms) (ht : t ∈ ms.tracks) :
    t.id ∈ (disconnect s).stoppedTrackIds := by
  rw [disconnect_stoppedTrackIds s, h1]
  simp only [stopTracks, List.mem_append, List.mem_map]
  exact Or.inl (Or.inr ⟨t, ht, rfl⟩)

theorem c9_witness :
    (connect (initClient Role.MASTER) goodEnv (some stream7)).1.localStream = some stream7 ∧
    track7 ∈ stream7.tracks ∧
    track7.id ∈ (disconnect (connect (initClient Role.MASTER) goodEnv (some stream7)).1).stoppedTrackIds :=
  ⟨rfl, by decide,
    c9_disconnect_stops_caller_tracks
      (connect (initClient Role.MASTER) goodEnv (some stream7)).1 stream7 track7 rfl (by decide)⟩

/-- C6 as stated is false at a concrete input: a MASTER already
negotiating with "R1" (remote description set to offer1, answer sent to
"R1") that receives an offer from "R2" does not ignore it: the remote
description is replaced by offer2 and a second answer, addressed to
"R2", is sent. -/
theorem c6_counterexample :
    remoteDescOf (processEvent (processEvent masterReady
        (SignalingEvent.sdpOffer offer1 "R1")) (SignalingEvent.sdpOffer offer2 "R2"))
      = some offer2 ∧
    (processEvent (processEvent masterReady
        (SignalingEvent.sdpOffer offer1 "R1")) (SignalingEvent.sdpOffer offer2 "R2")).sentMessages
      = [OutMsg.sdpAnswer createdAnswer "R1", OutMsg.sdpAnswer createdAnswer "R2"] := by
  decide

/-- C6 amended: the sdpOffer handler has no duplicate/unknown-remote
guard: a publisher that already negotiated with R1 processes a second
offer from any R2 exactly like the first, replacing the remote
description with the new offer and sending a second answer addressed to
R2. -/
theorem c6_second_offer_processed (s : KVSWebRTCClient) (pc : PeerConnection)
    (o1 o2 : SDP) (r1 r2 : String)
    (hrole : s.role = Role.MASTER) (hpc : s.peerConnection = some pc) :
    remoteDescOf (processEvent (processEvent s
        (SignalingEvent.sdpOffer o1 r1)) (SignalingEvent.sdpOffer o2 r2)) = some o2 ∧
    (processEvent (processEvent s
        (SignalingEvent.sdpOffer o1 r1)) (SignalingEvent.sdpOffer o2 r2)).sentMessages
      = s.sentMessages ++
        [OutMsg.sdpAnswer createdAnswer r1, OutMsg.sdpAnswer createdAnswer r2] := by
  simp [processEvent, handleSdpOffer, hrole, hpc, remoteDescOf]

theorem c6_witness :
    remoteDescOf (processEvent (processEvent masterReady
        (SignalingEvent.sdpOffer offer1 "R1")) (SignalingEvent.sdpOffer offer2 "R2"))
      = some offer2 ∧
    (processEvent (processEvent masterReady
        (SignalingEvent.sdpOffer offer1 "R1")) (SignalingEvent.sdpOffer offer2 "R2")).sentMessages
      = masterReady.sentMessages ++
        [OutMsg.sdpAnswer createdAnswer "R1", OutMsg.sdpAnswer createdAnswer "R2"] :=
  c6_second_offer_processed masterReady freshPC offer1 offer2 "R1" "R2" rfl rfl

theorem processEvent_role (s : KVSWebRTCClient) (e : SignalingEvent) :
    (processEvent s e).role = s.role := by
  cases e <;>
    simp only [processEvent, handleOpen, createAndSendOffer, handleSdpOffer,
      handleSdpAnswer, handleIceCandidate] <;>
    (repeat' split) <;> rfl

theorem processEvent_sc (s : KVSWebRTCClient) (e : SignalingEvent) :
    (processEvent s e).signalingClient = s.signalingClient := by
  cases e <;>
    simp only [processEvent, handleOpen, createAndSendOffer, handleSdpOffer,
      handleSdpAnswer, handleIceCandidate] <;>
    (repeat' split) <;> rfl

theorem processEvent_pc_isSome (s : KVSWebRTCClient) (e : SignalingEvent)
    (h : s.peerConnection.isSome = true) :
    (processEvent s e).peerConnection.isSome = true := by
  cases e <;>
    simp only [processEvent, handleOpen, createAndSendOffer, handleSdpOffer,
      handleSdpAnswer, handleIceCandidate] <;>
    (repeat' split) <;> simp_all

theorem processEvent_offersSent_master (s : KVSWebRTCClient) (e : SignalingEvent)
    (h : s.role = Role.MASTER) :
    offersSent (processEvent s e) = offersSent s := by
  cases e <;>
    simp [processEvent, handleOpen, createAndSendOffer, handleSdpOffer,
      handleSdpAnswer, handleIceCandidate, h, offersSent,
      List.countP_append, List.countP_cons] <;>
    (repeat' split) <;>
    simp [offersSent, List.countP_append, List.countP_cons]

theorem processEvent_offersSent_viewer (s : KVSWebRTCClient) (e : SignalingEvent)
    (h : s.role = Role.VIEWER) (hpc : s.peerConnection.isSome = true)
    (hsc : s.signalingClient.isSome = true) :
    offersSent (processEvent s e) = offersSent s + (if isOpenEvent e then 1 else 0) := by
  obtain ⟨pc, hpc2⟩ := Option.isSome_iff_exists.mp hpc
  obtain ⟨sc, hsc2⟩ := Option.isSome_iff_exists.mp hsc
  cases e <;>
    simp [processEvent, handleOpen, createAndSendOffer, handleSdpOffer,
      handleSdpAnswer, handleIceCandidate, h, hpc2, hsc2, isOpenEvent, offersSent,
      List.countP_append, List.countP_cons] <;>
    (repeat' split) <;>
    simp [offersSent, List.countP_append, List.countP_cons]

/-- C5: a MASTER (publisher) never sends an offer, whatever signaling
events arrive; a VIEWER (subscriber) with a live transport session and
signaling channel sends its single offer inside the open handler itself
(immediately after the channel reports open), and over a whole trace
sends exactly one offer per open event — so exactly one for the single
open event a channel delivers. -/
theorem c5_offer_policy (s : KVSWebRTCClient) (es : List SignalingEvent) :
    (s.role = Role.MASTER → offersSent (processEvents s es) = offersSent s) ∧
    (s.role = Role.VIEWER → s.peerConnection.isSome = true → s.signalingClient.isSome = true →
      (processEvent s SignalingEvent.opened).sentMessages =
        s.sentMessages ++ [OutMsg.sdpOffer createdOffer] ∧
      offersSent (processEvents s es) = offersSent s + openCount es) := by
  induction es generalizing s with
  | nil =>
    refine ⟨fun _ => rfl, fun h hpc hsc => ⟨?_, by simp [processEvents, openCount]⟩⟩
    obtain ⟨pc, hpc2⟩ := Option.isSome_iff_exists.mp hpc
    obtain ⟨sc, hsc2⟩ := Option.isSome_iff_exists.mp hsc
    simp [processEvent, handleOpen, createAndSendOffer, h, hpc2, hsc2]
  | cons e es ih =>
    constructor
    · intro h
      have h1 : (processEvent s e).role = Role.MASTER := by rw [processEvent_role, h]
      have h2 := (ih (processEvent s e)).1 h1
      show offersSent (processEvents (processEvent s e) es) = offersSent s
      rw [h2, processEvent_offersSent_master s e h]
    · intro h hpc hsc
      have h1 : (processEvent s e).role = Role.VIEWER := by rw [processEvent_role, h]
      have h2 := processEvent_pc_isSome s e hpc
      have h3 : (processEvent s e).signalingClient.isSome = true := by
        rw [processEvent_sc]
        exact hsc
      refine ⟨?_, ?_⟩
      · obtain ⟨pc, hpc2⟩ := Option.isSome_iff_exists.mp hpc
        obtain ⟨sc, hsc2⟩ := Option.isSome_iff_exists.mp hsc
        simp [processEvent, handleOpen, createAndSendOffer, h, hpc2, hsc2]
      · have h4 := ((ih (processEvent s e)).2 h1 h2 h3).2
        show offersSent (processEvents (processEvent s e) es) = offersSent s + openCount (e :: es)
        rw [h4, processEvent_offersSent_viewer s e h hpc hsc]
        rcases Bool.eq_false_or_eq_true (isOpenEvent e) with hb | hb <;>
          simp [openCount, List.countP_cons, hb] <;> omega

theorem c5_witness :
    (offersSent (processEvents masterReady
        [SignalingEvent.opened, SignalingEvent.sdpOffer offer1 "R1"]) = offersSent masterReady) ∧
    ((processEvent viewerReady SignalingEvent.opened).sentMessages =
        viewerReady.sentMessages ++ [OutMsg.sdpOffer createdOffer] ∧
      offersSent (processEvents viewerReady
        [SignalingEvent.opened, SignalingEvent.sdpAnswer offer1 ""]) =
        offersSent viewerReady + openCount
          [SignalingEvent.opened, SignalingEvent.sdpAnswer offer1 ""]) :=
  ⟨(c5_offer_policy masterReady
      [SignalingEvent.opened, SignalingEvent.sdpOffer offer1 "R1"]).1 rfl,
   (c5_offer_policy viewerReady
      [SignalingEvent.opened, SignalingEvent.sdpAnswer offer1 ""]).2 rfl rfl rfl⟩

theorem processEvents_buffer_phase (cs : List RTCIceCandidate)
    (s : KVSWebRTCClient) (pc : PeerConnection)
    (hpc : s.peerConnection = some pc) (hrd : pc.remoteDescription = none) :
    processEvents s (cs.map SignalingEvent.iceCandidate) =
      { s with pendingICECandidates := s.pendingICECandidates ++ cs } := by
  induction cs generalizing s with
  | nil => simp [processEvents]
  | cons c cs ih =>
    have step : processEvent s (SignalingEvent.iceCandidate c) =
        { s with pendingICECandidates := s.pendingICECandidates ++ [c] } := by
      simp [processEvent, handleIceCandidate, hpc, hrd]
    show processEvents (processEvent s (SignalingEvent.iceCandidate c))
        (cs.map SignalingEvent.iceCandidate) = _
    have h2 := ih { s with pendingICECandidates := s.pendingICECandidates ++ [c] } hpc
    rw [step, h2]
    simp

theorem processEvents_apply_phase (ds : List RTCIceCandidate)
    (s : KVSWebRTCClient) (pc : PeerConnection) (o : SDP)
    (hpc : s.peerConnection = some pc) (hrd : pc.remoteDescription = some o) :
    processEvents s (ds.map SignalingEvent.iceCandidate) =
      { s with peerConnection := some { pc with appliedCandidates := pc.appliedCandidates ++ ds } } := by
  induction ds generalizing s pc with
  | nil =>
    simp [processEvents]
    rw [← hpc]
  | cons d ds ih =>
    have step : processEvent s (SignalingEvent.iceCandidate d) =
        { s with peerConnection := some { pc with appliedCandidates := pc.appliedCandidates ++ [d] } } := by
      simp [processEvent, handleIceCandidate, hpc, hrd]
    show processEvents (processEvent s (SignalingEvent.iceCandidate d))
        (ds.map SignalingEvent.iceCandidate) = _
    have h2 := ih { s with peerConnection := some { pc with appliedCandidates := pc.appliedCandidates ++ [d] } }
      { pc with appliedCandidates := pc.appliedCandidates ++ [d] } rfl hrd
    rw [step, h2]
    simp

theorem handleSdpOffer_step (s : KVSWebRTCClient) (pc : PeerConnection) (o : SDP) (rid : String)
    (hrole : s.role = Role.MASTER) (hpc : s.peerConnection = some pc) :
    handleSdpOffer s o rid =
      { s with peerConnection := some { pc with remoteDescription := some o, localDescription := some createdAnswer, appliedCandidates := pc.appliedCandidates ++ s.pendingICECandidates },
               pendingICECandidates := [],
               sentMessages := s.sentMessages ++ [OutMsg.sdpAnswer createdAnswer rid] } := by
  simp [handleSdpOffer, hrole, hpc]

theorem handleSdpAnswer_step (s : KVSWebRTCClient) (pc : PeerConnection) (a : SDP) (rid : String)
    (hrole : s.role = Role.VIEWER) (hpc : s.peerConnection = some pc) :
    handleSdpAnswer s a rid =
      { s with peerConnection := some { pc with remoteDescription := some a, appliedCandidates := pc.appliedCandidates ++ s.pendingICECandidates },
               pendingICECandidates := [] } := by
  simp [handleSdpAnswer, hrole, hpc]

/-- C1: starting from a fresh negotiating client (transport session
created, no remote description, nothing buffered or applied), every
candidate received before the remote description is set is appended to
the pending buffer in arrival order with nothing applied; the event that
sets the remote description (a received offer for the publisher, a
received answer for the subscriber) flushes the whole buffer in that
same arrival order and clears it; and every candidate received
afterwards is applied immediately, never buffered. -/
theorem c1_candidate_buffer_flush (role : Role) (cs ds : List RTCIceCandidate)
    (o : SDP) (rid : String) (s : KVSWebRTCClient) (pc : PeerConnection)
    (hrole : s.role = role)
    (hpc : s.peerConnection = some pc)
    (hrd : pc.remoteDescription = none)
    (hap : pc.appliedCandidates = [])
    (hpend : s.pendingICECandidates = []) :
    (processEvents s (cs.map SignalingEvent.iceCandidate)).pendingICECandidates = cs ∧
    appliedOf (processEvents s (cs.map SignalingEvent.iceCandidate)) = [] ∧
    appliedOf (processEvent (processEvents s (cs.map SignalingEvent.iceCandidate))
        (remoteDescEvent role o rid)) = cs ∧
    (processEvent (processEvents s (cs.map SignalingEvent.iceCandidate))
        (remoteDescEvent role o rid)).pendingICECandidates = [] ∧
    appliedOf (processEvents (processEvent (processEvents s (cs.map SignalingEvent.iceCandidate))
        (remoteDescEvent role o rid)) (ds.map SignalingEvent.iceCandidate)) = cs ++ ds ∧
    (processEvents (processEvent (processEvents s (cs.map SignalingEvent.iceCandidate))
        (remoteDescEvent role o rid)) (ds.map SignalingEvent.iceCandidate)).pendingICECandidates
      = [] := by
  have hb := processEvents_buffer_phase cs s pc hpc hrd
  cases role with
  | MASTER =>
    have e2 : handleSdpOffer { s with pendingICECandidates := s.pendingICECandidates ++ cs } o rid =
        { s with peerConnection := some { pc with remoteDescription := some o, localDescription := some createdAnswer, appliedCandidates := pc.appliedCandidates ++ (s.pendingICECandidates ++ cs) },
                 pendingICECandidates := [],
                 sentMessages := s.sentMessages ++ [OutMsg.sdpAnswer createdAnswer rid] } :=
      handleSdpOffer_step _ pc o rid hrole hpc
    have e3 := processEvents_apply_phase ds
        { s with peerConnection := some { pc with remoteDescription := some o, localDescription := some createdAnswer, appliedCandidates := pc.appliedCandidates ++ (s.pendingICECandidates ++ cs) },
                 pendingICECandidates := [],
                 sentMessages := s.sentMessages ++ [OutMsg.sdpAnswer createdAnswer rid] }
        { pc with remoteDescription := some o, localDescription := some createdAnswer, appliedCandidates := pc.appliedCandidates ++ (s.pendingICECandidates ++ cs) }
        o rfl rfl
    refine ⟨?_, ?_, ?_, ?_, ?_, ?_⟩
    · rw [hb]
      simp [hpend]
    · rw [hb]
      simp [appliedOf, hpc, hap]
    · simp only [remoteDescEvent, processEvent]
      rw [hb, e2]
      simp [appliedOf, hap, hpend]
    · simp only [remoteDescEvent, processEvent]
      rw [hb, e2]
    · simp only [remoteDescEvent, processEvent]
      rw [hb, e2, e3]
      simp [appliedOf, hap, hpend]
    · simp only [remoteDescEvent, processEvent]
      rw [hb, e2, e3]
  | VIEWER =>
    have e2 : handleSdpAnswer { s with pendingICECandidates := s.pendingICECandidates ++ cs } o rid =
        { s with peerConnection := some { pc with remoteDescription := some o, appliedCandidates := pc.appliedCandidates ++ (s.pendingICECandidates ++ cs) },
                 pendingICECandidates := [] } :=
      handleSdpAnswer_step _ pc o rid hrole hpc
    have e3 := processEvents_apply_phase ds
        { s with peerConnection := some { pc with remoteDescription := some o, appliedCandidates := pc.appliedCandidates ++ (s.pendingICECandidates ++ cs) },
                 pendingICECandidates := [] }
        { pc with remoteDescription := some o, appliedCandidates := pc.appliedCandidates ++ (s.pendingICECandidates ++ cs) }
        o rfl rfl
    refine ⟨?_, ?_, ?_, ?_, ?_, ?_⟩
    · rw [hb]
      simp [hpend]
    · rw [hb]
      simp [appliedOf, hpc, hap]
    · simp only [remoteDescEvent, processEvent]
      rw [hb, e2]
      simp [appliedOf, hap, hpend]
    · simp only [remoteDescEvent, processEvent]
      rw [hb, e2]
    · simp only [remoteDescEvent, processEvent]
      rw [hb, e2, e3]
      simp [appliedOf, hap, hpend]
    · simp only [remoteDescEvent, processEvent]
      rw [hb, e2, e3]

theorem c1_witness :
    (processEvents masterReady ([candA, candB].map SignalingEvent.iceCandidate)).pendingICECandidates = [candA, candB] ∧
    appliedOf (processEvents masterReady ([candA, candB].map SignalingEvent.iceCandidate)) = [] ∧
    appliedOf (processEvent (processEvents masterReady ([candA, candB].map SignalingEvent.iceCandidate))
        (remoteDescEvent Role.MASTER offer1 "R1")) = [candA, candB] ∧
    (processEvent (processEvents masterReady ([candA, candB].map SignalingEvent.iceCandidate))
        (remoteDescEvent Role.MASTER offer1 "R1")).pendingICECandidates = [] ∧
    appliedOf (processEvents (processEvent (processEvents masterReady
        ([candA, candB].map SignalingEvent.iceCandidate))
        (remoteDescEvent Role.MASTER offer1 "R1")) ([candC].map SignalingEvent.iceCandidate))
      = [candA, candB] ++ [candC] ∧
    (processEvents (processEvent (processEvents masterReady
        ([candA, candB].map SignalingEvent.iceCandidate))
        (remoteDescEvent Role.MASTER offer1 "R1")) ([candC].map SignalingEvent.iceCandidate)).pendingICECandidates
      = [] :=
  c1_candidate_buffer_flush Role.MASTER [candA, candB] [candC] offer1 "R1"
    masterReady freshPC rfl rfl rfl rfl rfl
